import Mathlib

/-!
Shallow embedding of the shorts-generation pipeline (FastAPI + Gemini service).

Sources embedded:
  app/utils/time_utils.py            (parse_timestamp, calculate_duration, format_timestamp_ffmpeg)
  app/services/shorts_identifier.py  (_parse_shorts_analysis, identify_shorts_from_video)
  app/services/context_optimizer.py  (optimize_segment_starts)
  app/api/routes/shorts.py           (identify_shorts route)
  the Fuzzy Locator / Segment Resolver of spec sections 4.2 and 4.3, which have
  no implementation in the repository, are modelled from the spec where noted.

Python numbers are modelled as rationals; Python strings as Lean strings,
manipulated through their character lists so that everything kernel-reduces;
an exception observed by a caller is modelled as Option/Except.  The external
Gemini responses are plain inputs of the embedded functions (the code consumes
them as already-parsed JSON, constrained by a response schema to the shapes
modelled here).
-/

namespace ShortGen

/-- Whitespace characters recognized by Python str.strip / str.split(). -/
def isSpace (c : Char) : Bool :=
  c = ' ' || c = '\t' || c = '\n' || c = '\r' || c = '\x0b' || c = '\x0c'

/-- Python str.strip(): drop leading and trailing whitespace. -/
def pyStrip (l : List Char) : List Char :=
  ((l.dropWhile isSpace).reverse.dropWhile isSpace).reverse

/-- Helper of splitOnChar, carrying the current chunk in reverse order. -/
def splitOnCharAux (sep : Char) : List Char → List Char → List (List Char)
  | [], acc => [acc.reverse]
  | c :: rest, acc =>
    if c = sep then acc.reverse :: splitOnCharAux sep rest []
    else splitOnCharAux sep rest (c :: acc)

/-- Python str.split(sep) for a one-character separator. -/
def splitOnChar (sep : Char) (l : List Char) : List (List Char) :=
  splitOnCharAux sep l []

/-- Digits of a decimal numeral, leftmost first, to a natural number. -/
def digitsToNat (l : List Char) : Nat :=
  l.foldl (fun acc c => acc * 10 + (c.toNat - 48)) 0

/-- Parse a nonempty all-digit character list, the digit run of Python int parsing. -/
def parseDigits (l : List Char) : Option Nat :=
  if l ≠ [] ∧ l.all Char.isDigit then some (digitsToNat l) else none

/-- Python `int(s)`: optional surrounding whitespace, optional sign, decimal
digits; anything else raises ValueError (modelled as none). -/
def parseInt (s : String) : Option Int :=
  match pyStrip s.data with
  | '-' :: rest => (parseDigits rest).map (fun n => -(n : Int))
  | '+' :: rest => (parseDigits rest).map (fun n => (n : Int))
  | l => (parseDigits l).map (fun n => (n : Int))

/-- Unsigned decimal literal with optional fractional part, as accepted by
Python float for the timestamp fragments in scope ("30", "01.740", "30.", ".5"). -/
def parseUnsignedFloat (l : List Char) : Option ℚ :=
  match splitOnChar '.' l with
  | [a] => (parseDigits a).map (fun n => (n : ℚ))
  | [a, b] =>
    if a = [] ∧ b = [] then none
    else
      let ip : Option Nat := if a = [] then some 0 else parseDigits a
      let fp : Option Nat := if b = [] then some 0 else parseDigits b
      match ip, fp with
      | some i, some f => some ((i : ℚ) + (f : ℚ) / ((10 : ℚ) ^ b.length))
      | _, _ => none
  | _ => none

/-- Python `float(s)`: optional surrounding whitespace and sign around a
decimal literal. -/
def parseFloat (s : String) : Option ℚ :=
  match pyStrip s.data with
  | '-' :: rest => (parseUnsignedFloat rest).map (fun q => -q)
  | '+' :: rest => parseUnsignedFloat rest
  | l => parseUnsignedFloat l

/-- Embeds time_utils.parse_timestamp: strip, split on ":", accept MM:SS
(int minutes, float seconds) or HH:MM:SS (int hours, int minutes, float
seconds); any other shape or a failed int/float conversion raises ValueError
(none).  Returns total seconds. -/
def parse_timestamp (timestamp : String) : Option ℚ :=
  match splitOnChar ':' (pyStrip timestamp.data) with
  | [m, s] => do
    let mi ← parseInt (String.mk m)
    let se ← parseFloat (String.mk s)
    pure ((mi : ℚ) * 60 + se)
  | [h, m, s] => do
    let hi ← parseInt (String.mk h)
    let mi ← parseInt (String.mk m)
    let se ← parseFloat (String.mk s)
    pure ((hi : ℚ) * 3600 + (mi : ℚ) * 60 + se)
  | _ => none

/-- Embeds time_utils.calculate_duration: parse both timestamps and subtract;
a parse failure propagates (none). -/
def calculate_duration (start_time end_time : String) : Option ℚ := do
  let s ← parse_timestamp start_time
  let e ← parse_timestamp end_time
  pure (e - s)

/-! Data model of app/schemas/shorts.py and the parsed Gemini JSON. -/

/-- One entry of the "shorts" array of the Gemini shorts-identification JSON.
The response schema (SHORTS_SCHEMA) constrains present fields to these types;
absent fields are none (the code reads them with dict.get defaults). -/
structure ShortData where
  title : Option String
  start_time : Option String
  end_time : Option String
  hook : Option String
  content_summary : Option String
  virality_score : Option ℚ
  virality_reasons : Option (List String)
deriving DecidableEq, Repr

/-- The parsed Gemini shorts-identification JSON document. -/
structure ShortsData where
  video_summary : Option String
  shorts : List ShortData
deriving DecidableEq, Repr

/-- Embeds schemas.shorts.PotentialShort (pydantic model). -/
structure PotentialShort where
  title : String
  start_time : String
  end_time : String
  duration_seconds : ℚ
  hook : String
  content_summary : String
  virality_score : ℚ
  virality_reasons : List String
deriving DecidableEq, Repr

/-- Embeds schemas.shorts.ShortsAnalysis (pydantic model). -/
structure ShortsAnalysis where
  video_summary : String
  total_shorts_found : Nat
  shorts : List PotentialShort
deriving DecidableEq, Repr

/-- Processing of one entry of the shorts array inside _parse_shorts_analysis:
read the timestamps with "00:00:00" defaults, compute the duration, skip the
entry when the duration is below min or above max or when constructing the
PotentialShort raises ValueError.  A ValueError arises from an unparseable
timestamp, or from pydantic validation: duration_seconds is an int field (a
float with a fractional part is rejected) and virality_score carries
ge=0, le=100 bounds. -/
def parseOneShort (minDur maxDur : ℚ) (sd : ShortData) : Option PotentialShort :=
  match calculate_duration (sd.start_time.getD "00:00:00") (sd.end_time.getD "00:00:00") with
  | none => none
  | some dur =>
    if dur < minDur then none
    else if maxDur < dur then none
    else
      let score := sd.virality_score.getD 0
      if dur.den = 1 ∧ 0 ≤ score ∧ score ≤ 100 then
        some
          { title := sd.title.getD "Untitled Short"
            start_time := sd.start_time.getD "00:00:00"
            end_time := sd.end_time.getD "00:00:00"
            duration_seconds := dur
            hook := sd.hook.getD ""
            content_summary := sd.content_summary.getD ""
            virality_score := score
            virality_reasons := sd.virality_reasons.getD [] }
      else none

/-- Ordering used by the final `shorts.sort(key=..., reverse=True)`: a before b
when b's virality score is at most a's.  Python's sort is stable and
reverse=True preserves the relative order of equal keys, so the sort is
embedded as a stable insertion sort under this relation. -/
def scoreGE (a b : PotentialShort) : Prop := b.virality_score ≤ a.virality_score

instance : DecidableRel scoreGE := fun a b =>
  inferInstanceAs (Decidable (b.virality_score ≤ a.virality_score))

/-- Embeds ShortsIdentifierService._parse_shorts_analysis: filter and convert
the candidate entries in order, sort by descending virality score (stable),
and assemble a ShortsAnalysis whose total_shorts_found is the length of the
kept list. -/
def parse_shorts_analysis (minDur maxDur : ℚ) (ds : ShortsData) : ShortsAnalysis :=
  let shorts := (ds.shorts.filterMap (parseOneShort minDur maxDur)).insertionSort scoreGE
  { video_summary := ds.video_summary.getD ""
    total_shorts_found := shorts.length
    shorts := shorts }

/-! Embedding of app/services/context_optimizer.py. -/

/-- A segment dict as built in identify_shorts_from_video and mutated by
optimize_segment_starts; duration_seconds is absent (none) until the optimizer
adds the key. -/
structure Seg where
  start_time : String
  end_time : String
  duration_seconds : Option ℚ
deriving DecidableEq, Repr

/-- One entry of the optimized_segments array of the context-optimization JSON
(CONTEXT_SCHEMA). -/
structure OptEntry where
  original_start : String
  optimized_start : String
  context_added : Option String
deriving DecidableEq, Repr

/-- The dict comprehension building optimization_map: later entries with the
same original_start overwrite earlier ones, so lookup finds the last match. -/
def lookupOpt (entries : List OptEntry) (key : String) : Option OptEntry :=
  entries.reverse.find? (fun e => e.original_start = key)

/-- The application loop of optimize_segment_starts.  Each segment whose
start_time is in the map gets the optimized start assigned first and its
duration recalculated second; if recalculation raises ValueError (unparseable
timestamp) the exception aborts the loop and the except-branch returns the
list as mutated so far: the current segment keeps the already-assigned new
start without a duration, and later segments are untouched. -/
def applyOptimizations (lk : String → Option OptEntry) : List Seg → List Seg
  | [] => []
  | seg :: rest =>
    match lk seg.start_time with
    | none => seg :: applyOptimizations lk rest
    | some opt =>
      match calculate_duration opt.optimized_start seg.end_time with
      | none => { seg with start_time := opt.optimized_start } :: rest
      | some d =>
        { seg with start_time := opt.optimized_start, duration_seconds := some d }
          :: applyOptimizations lk rest

/-- Embeds context_optimizer.optimize_segment_starts.  The Gemini call and
JSON parsing are summarized by resp: none when the external analysis is
unavailable or its response is malformed (any exception raised before the
application loop), some entries when an optimized_segments list was parsed.
All exceptions are caught and the (possibly partially mutated, in place)
segments list is returned. -/
def optimize_segment_starts (segments : List Seg) (resp : Option (List OptEntry)) : List Seg :=
  if segments.isEmpty then segments
  else
    match resp with
    | none => segments
    | some entries => applyOptimizations (lookupOpt entries) segments

/-! Embedding of identify_shorts_from_video (steps 4 and 5) and of the
identify_shorts route. -/

/-- The copy-back loop body in identify_shorts_from_video: when the optimized
start differs, assign it and set duration_seconds to the dict's
duration_seconds if present, else to a freshly calculated duration.  Python
evaluates the dict.get default eagerly, so an unparseable timestamp raises
even when the key is present; none models that escaping exception. -/
def copyBack (short : PotentialShort) (opt : Seg) : Option PotentialShort :=
  if short.start_time = opt.start_time then some short
  else
    match calculate_duration opt.start_time short.end_time with
    | none => none
    | some fb =>
      some { short with start_time := opt.start_time
                        duration_seconds := opt.duration_seconds.getD fb }

/-- Embeds ShortsIdentifierService.identify_shorts_from_video from the point
where the Gemini response is parsed: parse the analysis, and when shorts were
found run optimize_segment_starts on their (start, end) pairs and copy the
optimized starts back.  ds is the parsed shorts JSON and resp the context
optimizer outcome; none models an exception escaping the method. -/
def identify_shorts_from_video (minDur maxDur : ℚ) (ds : ShortsData)
    (resp : Option (List OptEntry)) : Option ShortsAnalysis :=
  let analysis := parse_shorts_analysis minDur maxDur ds
  if analysis.shorts.isEmpty then some analysis
  else
    let segments := analysis.shorts.map (fun s => Seg.mk s.start_time s.end_time none)
    let optimized := optimize_segment_starts segments resp
    match (analysis.shorts.zip optimized).mapM (fun p => copyBack p.1 p.2) with
    | none => none
    | some shorts2 => some { analysis with shorts := shorts2 }

/-- Keyword parameters accepted by ShortsIdentifierService.identify_shorts_from_video
(besides self): its signature is (self, video_path, max_shorts=None). -/
def serviceAcceptedKwargs : List String := ["video_path", "max_shorts"]

/-- Keyword arguments the identify_shorts route passes in
shorts_service.identify_shorts_from_video(video_path=..., max_shorts=...,
min_duration=..., max_duration=...). -/
def routeSuppliedKwargs : List String :=
  ["video_path", "max_shorts", "min_duration", "max_duration"]

/-- Whether the route's call binds against the service method's signature;
an unexpected keyword argument raises TypeError at the call site. -/
def routeCallBinds : Bool :=
  routeSuppliedKwargs.all (fun k => serviceAcceptedKwargs.contains k)

/-- Embeds the identify_shorts route handler of app/api/routes/shorts.py: call
the service inside try, wrap any exception into an HTTP 500 error response.
The TypeError from a non-binding call is an exception inside the try block. -/
def identify_shorts_route (minDur maxDur : ℚ) (ds : ShortsData)
    (resp : Option (List OptEntry)) : Except Nat ShortsAnalysis :=
  if routeCallBinds then
    match identify_shorts_from_video minDur maxDur ds resp with
    | some a => Except.ok a
    | none => Except.error 500
  else Except.error 500

/-! Modelled from the spec: the Timestamp Alignment Engine of spec sections
4.1 to 4.3 (Text Normalizer, Fuzzy Locator, Segment Resolver).  No code in the
repository implements these components, only the spec describes them, so the
definitions below follow the spec's words. -/

/-- Modelled from the spec: a word of the Word Timeline (section 3), with its
text and acoustic start and end seconds. -/
structure WordToken where
  text : String
  tstart : ℚ
  tend : ℚ
deriving DecidableEq, Repr

/-- Modelled from the spec: a candidate segment expressed purely as quoted
opening and closing text (section 3, CandidateQuote). -/
structure CandidateQuote where
  start_phrase : String
  end_phrase : String
deriving DecidableEq, Repr

/-- Modelled from the spec: a successfully resolved segment (section 3,
ResolvedSegment). -/
structure ResolvedSegment where
  start_time : ℚ
  end_time : ℚ
  start_confidence : ℚ
  end_confidence : ℚ
deriving DecidableEq, Repr

/-- Modelled from the spec: the per-candidate failure kinds of section 7. -/
inductive MatchFailure where
  | emptyTimeline
  | invalidOrdering
  | lowConfidence
  | durationOutOfBounds
deriving DecidableEq, Repr

/-- Modelled from the spec: outcome of resolving one candidate (section 4.3),
either a ResolvedSegment or an explicit non-match. -/
inductive ResolveOutcome where
  | ok (seg : ResolvedSegment)
  | noMatch (f : MatchFailure)
deriving DecidableEq, Repr

/-- Join word character lists with single spaces. -/
def joinWords (ws : List (List Char)) : List Char :=
  (ws.intersperse [' ']).flatten

/-- Maximal nonempty runs of non-whitespace characters. -/
def wordChunks (l : List Char) : List (List Char) :=
  (splitOnChar ' ' (l.map fun c => if isSpace c then ' ' else c)).filter (fun w => w ≠ [])

/-- Modelled from the spec: the Text Normalizer (section 4.1): lower-case,
collapse whitespace runs to one space, trim. -/
def normalize (s : String) : String :=
  String.mk (joinWords (wordChunks (s.data.map Char.toLower)))

/-- Words of a phrase: maximal nonempty runs between whitespace. -/
def wordsOf (s : String) : List (List Char) :=
  wordChunks s.data

/-- Modelled from the spec: word_count of a phrase (section 4.2). -/
def wordCount (s : String) : Nat := (wordsOf s).length

/-- Naive Levenshtein distance with a structural fuel argument so that it
kernel-reduces; with fuel at least the total length the fuel never runs out. -/
def levFuel : Nat → List Char → List Char → Nat
  | _, [], ys => ys.length
  | _, xs, [] => xs.length
  | 0, xs, ys => xs.length + ys.length
  | fuel + 1, x :: xs, y :: ys =>
    if x = y then levFuel fuel xs ys
    else 1 + min (levFuel fuel xs (y :: ys)) (min (levFuel fuel (x :: xs) ys) (levFuel fuel xs ys))

/-- Levenshtein edit distance between two character lists. -/
def lev (xs ys : List Char) : Nat := levFuel (xs.length + ys.length) xs ys

/-- Modelled from the spec: the character-level similarity ratio of section
4.2, edit-distance derived, in [0,1], and 1 exactly on identical strings. -/
def sim (a b : String) : ℚ :=
  let m := max a.data.length b.data.length
  if m = 0 then 1 else 1 - (lev a.data b.data : ℚ) / (m : ℚ)

/-- Modelled from the spec: the window text at a position (section 4.2): join
the window's token texts with single spaces. -/
def windowText (tl : List WordToken) (pos width : Nat) : String :=
  String.mk (joinWords (((tl.drop pos).take width).map (fun t => t.text.data)))

/-- Score of the window starting at a position against the normalized target. -/
def windowScore (tl : List WordToken) (tgt : String) (width pos : Nat) : ℚ :=
  sim (normalize (windowText tl pos width)) tgt

/-- Modelled from the spec: the sliding scan of the Fuzzy Locator (section
4.2).  fuel counts the remaining positions; at each position the window is
scored, a score above 0.95 terminates early, and otherwise the maximum score
and its first position are tracked. -/
def locateGo (tl : List WordToken) (tgt : String) (width : Nat) :
    Nat → Nat → Nat × ℚ → Nat × ℚ
  | 0, _, best => best
  | fuel + 1, pos, best =>
    if pos < tl.length then
      let sc := windowScore tl tgt width pos
      if 95 / 100 < sc then (pos, sc)
      else locateGo tl tgt width fuel (pos + 1) (if best.2 < sc then (pos, sc) else best)
    else best

/-- Modelled from the spec: locate(target_phrase, timeline) of section 4.2,
with window width word_count(target_phrase) + 3, returning the best position
and its confidence. -/
def locate (target : String) (tl : List WordToken) : Nat × ℚ :=
  locateGo tl (normalize target) (wordCount target + 3) tl.length 0 (0, -1)

/-- Token at an index, with an inert default outside the timeline. -/
def tokenAt (tl : List WordToken) (i : Nat) : WordToken :=
  tl.getD i ⟨"", 0, 0⟩

/-- Modelled from the spec: the end-token index of a located end phrase
(section 4.3): where the end phrase begins plus its word count minus one,
clamped to the last valid index. -/
def endTokenIndex (q : CandidateQuote) (tl : List WordToken) : Nat :=
  min ((locate q.end_phrase tl).1 + wordCount q.end_phrase - 1) (tl.length - 1)

/-- Ordering check of section 4.3: the computed end-token index must be
strictly greater than the start position. -/
def orderingOK (q : CandidateQuote) (tl : List WordToken) : Prop :=
  (locate q.start_phrase tl).1 < endTokenIndex q tl

/-- Confidence check of section 4.3: both located confidences at least
min_confidence. -/
def confidenceOK (q : CandidateQuote) (tl : List WordToken) (minConf : ℚ) : Prop :=
  minConf ≤ (locate q.start_phrase tl).2 ∧ minConf ≤ (locate q.end_phrase tl).2

/-- Duration implied by a candidate: start token's start to end token's end. -/
def resolvedSpan (q : CandidateQuote) (tl : List WordToken) : ℚ × ℚ :=
  ((tokenAt tl (locate q.start_phrase tl).1).tstart, (tokenAt tl (endTokenIndex q tl)).tend)

/-- Duration check of section 4.3: end_time - start_time inside
[min_duration, max_duration]. -/
def durationOK (q : CandidateQuote) (tl : List WordToken) (minDur maxDur : ℚ) : Prop :=
  minDur ≤ (resolvedSpan q tl).2 - (resolvedSpan q tl).1 ∧
    (resolvedSpan q tl).2 - (resolvedSpan q tl).1 ≤ maxDur

instance (q tl) : Decidable (orderingOK q tl) :=
  inferInstanceAs (Decidable (_ < _))

instance (q tl minConf) : Decidable (confidenceOK q tl minConf) :=
  inferInstanceAs (Decidable (_ ∧ _))

instance (q tl minDur maxDur) : Decidable (durationOK q tl minDur maxDur) :=
  inferInstanceAs (Decidable (_ ∧ _))

/-- Modelled from the spec: resolve(candidate_quote, timeline, min_confidence,
min_duration, max_duration) of section 4.3: locate both phrases, then validate
ordering, confidence and duration in that order, first failure winning; an
empty timeline is an immediate non-match (section 6). -/
def resolve (q : CandidateQuote) (tl : List WordToken) (minConf minDur maxDur : ℚ) :
    ResolveOutcome :=
  if tl.length = 0 then .noMatch .emptyTimeline
  else if ¬ orderingOK q tl then .noMatch .invalidOrdering
  else if ¬ confidenceOK q tl minConf then .noMatch .lowConfidence
  else if ¬ durationOK q tl minDur maxDur then .noMatch .durationOutOfBounds
  else
    .ok ⟨(resolvedSpan q tl).1, (resolvedSpan q tl).2,
      (locate q.start_phrase tl).2, (locate q.end_phrase tl).2⟩

/-! Embedding of time_utils.format_timestamp_ffmpeg. -/

/-- Python's % for floats with a positive divisor: result in [0, b). -/
def pymod (a b : ℚ) : ℚ := a - b * (⌊a / b⌋ : ℤ)

/-- Round half to even, the rounding used by printf-style fixed-point
formatting of the seconds value. -/
def roundHalfEven (q : ℚ) : ℤ :=
  let f := ⌊q⌋
  let r := q - (f : ℚ)
  if 1 / 2 < r then f + 1
  else if r < 1 / 2 then f
  else if f % 2 = 0 then f else f + 1

/-- Value of a decimal digit character. -/
def digitVal (c : Char) : Nat := c.toNat - 48

/-- Two-digit zero-padded decimal rendering (the %02d format): exactly two
digits below 100, plain decimal above. -/
def pad2 (n : Nat) : String :=
  if n < 100 then String.mk [Nat.digitChar (n / 10), Nat.digitChar (n % 10)]
  else String.mk (Nat.toDigits 10 n)

/-- Three-digit zero-padded decimal rendering for the milliseconds. -/
def pad3 (n : Nat) : String :=
  if n < 1000 then
    String.mk [Nat.digitChar (n / 100), Nat.digitChar (n / 10 % 10), Nat.digitChar (n % 10)]
  else String.mk (Nat.toDigits 10 n)

/-- Embeds time_utils.format_timestamp_ffmpeg for nonnegative input: hours =
int(total // 3600), minutes = int((total % 3600) // 60), seconds = total % 60
rendered by the "%06.3f" format, which rounds the seconds value to three
decimals (half to even) and zero-pads the integer part to two digits. -/
def format_timestamp_ffmpeg (total : ℚ) : String :=
  let hours := (⌊total / 3600⌋).toNat
  let minutes := (⌊pymod total 3600 / 60⌋).toNat
  let milli := (roundHalfEven (1000 * pymod total 60)).toNat
  pad2 hours ++ ":" ++ pad2 minutes ++ ":" ++ pad2 (milli / 1000) ++ "." ++ pad3 (milli % 1000)

/-- Character-level form of the HH:MM:SS.mmm contract check. -/
def isHHMMSSmmmChars : List Char → Bool
  | [h1, h2, c1, m1, m2, c2, s1, s2, d, x, y, z] =>
    (c1 == ':') && (c2 == ':') && (d == '.') &&
    h1.isDigit && h2.isDigit && m1.isDigit && m2.isDigit &&
    s1.isDigit && s2.isDigit && x.isDigit && y.isDigit && z.isDigit &&
    decide (10 * digitVal m1 + digitVal m2 < 60) &&
    decide (10 * digitVal s1 + digitVal s2 < 60)
  | _ => false

/-- The HH:MM:SS.mmm contract stated in the spec for the clipping
collaborator: two zero-padded hour digits, two minute digits, two second
digits, a dot, three millisecond digits, with the minutes and seconds fields
strictly below 60. -/
def isHHMMSSmmm (s : String) : Bool :=
  isHHMMSSmmmChars s.data

/-! Concrete inputs used by the evaluation theorems below. -/

/-- A candidate with a 30 second span and score 50, kept by the parser. -/
def cGood : ShortData :=
  ⟨some "A", some "00:01:00", some "00:01:30", none, none, some 50, none⟩

/-- A candidate with a 5 second span, below the 15 second minimum. -/
def cShort : ShortData :=
  ⟨some "B", some "00:00:00", some "00:00:05", none, none, some 80, none⟩

/-- One-candidate Gemini document for the end-before-start scenario. -/
def dsC1 : ShortsData := ⟨some "sum", [cGood]⟩

/-- Optimizer response moving the start of the 00:01:00 segment to 00:05:00,
past its 00:01:30 end. -/
def respC1 : Option (List OptEntry) := some [⟨"00:01:00", "00:05:00", some "ctx"⟩]

/-- Input segment list for the start-moved-later scenario. -/
def segsC2 : List Seg := [⟨"00:01:00", "00:01:30", none⟩]

/-- Optimizer response whose optimized start 00:01:10 is later than the
original start 00:01:00. -/
def respC2 : Option (List OptEntry) := some [⟨"00:01:00", "00:01:10", some "x"⟩]

/-- Two input segments for the partial-mutation-on-error scenario. -/
def segsC3 : List Seg := [⟨"00:00:10", "00:00:40", none⟩, ⟨"00:01:00", "00:01:30", none⟩]

/-- Optimizer response with a valid optimized start for the first segment and
an unparseable one for the second. -/
def respC3 : Option (List OptEntry) :=
  some [⟨"00:00:10", "00:00:05", some "ok"⟩, ⟨"00:01:00", "bad", none⟩]

/-- Gemini document whose only candidate fails duration validation, so zero
candidates resolve. -/
def dsC6 : ShortsData := ⟨some "", [cShort]⟩

/-- A second kept candidate, after the rejected one in dsC5. -/
def cGood2 : ShortData :=
  ⟨some "C", some "00:02:00", some "00:02:20", none, none, some 10, none⟩

/-- Document with a below-minimum candidate between two kept ones. -/
def dsC5 : ShortsData := ⟨some "v", [cGood, cShort, cGood2]⟩

/-- The same document with the below-minimum candidate removed. -/
def dsC5' : ShortsData := ⟨some "v", [cGood, cGood2]⟩

/-- Six-token timeline of one-letter words, 0.3 s per word from 10.0 s. -/
def tlSmall : List WordToken :=
  [⟨"a", 10, 103 / 10⟩, ⟨"b", 103 / 10, 106 / 10⟩, ⟨"c", 106 / 10, 109 / 10⟩,
   ⟨"d", 109 / 10, 112 / 10⟩, ⟨"e", 112 / 10, 115 / 10⟩, ⟨"f", 115 / 10, 118 / 10⟩]

/-- Candidate quote over tlSmall whose phrases occur verbatim. -/
def qSmall : CandidateQuote := ⟨"a b", "e f"⟩

/-- Two-token timeline whose full text is an exact match for a two-word
target. -/
def tlHello : List WordToken := [⟨"Hello", 0, 1⟩, ⟨"world", 1, 2⟩]

end ShortGen

namespace ShortGen

/-- C10: every ShortsAnalysis value returned by _parse_shorts_analysis has
total_shorts_found equal to the length of its shorts list, for every input
document. -/
theorem parse_total_counts_shorts (minDur maxDur : ℚ) (ds : ShortsData) :
    (parse_shorts_analysis minDur maxDur ds).total_shorts_found
      = (parse_shorts_analysis minDur maxDur ds).shorts.length := rfl

/-- C1: evaluating the pipeline on a parsed candidate 00:01:00 to 00:01:30 and
an optimizer response that moves that start to 00:05:00 produces a final
segment whose start time (300 s) is after its end time (90 s):
optimize_segment_starts applies the returned optimized start without checking
it against the segment end, and identify_shorts_from_video copies it back, so
a segment with end_time less than start_time is constructed. -/
theorem identify_constructs_end_before_start :
    identify_shorts_from_video 15 60 dsC1 respC1 =
      some ⟨"sum", 1, [⟨"A", "00:05:00", "00:01:30", -210, "", "", 50, []⟩]⟩ ∧
    parse_timestamp "00:05:00" = some 300 ∧
    parse_timestamp "00:01:30" = some 90 ∧ ((90 : ℚ) < 300) := by
  with_unfolding_all decide

/-- C2: evaluating optimize_segment_starts on a segment starting at 00:01:00
(60 s) and a response whose optimized start is 00:01:10 (70 s) shows the code
adopting a start later than the original: the never-later rule appears only in
the prompt text and is not enforced on the response.  The end time is
unchanged in this run. -/
theorem optimize_moves_start_later :
    optimize_segment_starts segsC2 respC2 = [⟨"00:01:10", "00:01:30", some 20⟩] ∧
    parse_timestamp "00:01:00" = some 60 ∧
    parse_timestamp "00:01:10" = some 70 ∧ ((60 : ℚ) < 70) := by
  with_unfolding_all decide

/-- C3: when the optimizer response is malformed midway (second segment's
optimized start unparseable), the except-branch of optimize_segment_starts
returns the in-place mutated list, not the input: the first segment has its
new start and duration applied and the second carries the unparseable start,
though the code path is the one meant to fall back to original timestamps. -/
theorem optimize_failure_returns_mutated :
    optimize_segment_starts segsC3 respC3 =
      [⟨"00:00:05", "00:00:40", some 35⟩, ⟨"bad", "00:01:30", none⟩] ∧
    optimize_segment_starts segsC3 respC3 ≠ segsC3 := by
  with_unfolding_all decide

/-- Helper for the duration filter: a candidate whose computed duration is
below min or above max converts to none. -/
theorem parseOneShort_out_of_bounds_eq_none (minDur maxDur : ℚ) (c : ShortData) (d : ℚ)
    (hd : calculate_duration (c.start_time.getD "00:00:00") (c.end_time.getD "00:00:00")
      = some d)
    (hout : d < minDur ∨ maxDur < d) :
    parseOneShort minDur maxDur c = none := by
  unfold parseOneShort
  rw [hd]
  dsimp only
  rcases hout with h | h
  · rw [if_pos h]
  · by_cases h2 : d < minDur
    · rw [if_pos h2]
    · rw [if_neg h2, if_pos h]

/-- C5: a candidate whose computed duration lies strictly outside
[min_duration, max_duration] is excluded from the parser's output entirely:
the analysis equals the analysis of the candidate list with that candidate
removed, so its boundaries are never clamped and the remaining candidates are
processed unchanged. -/
theorem duration_filter_excludes (minDur maxDur : ℚ) (ds : ShortsData)
    (pre post : List ShortData) (c : ShortData) (d : ℚ)
    (hshape : ds.shorts = pre ++ c :: post)
    (hd : calculate_duration (c.start_time.getD "00:00:00") (c.end_time.getD "00:00:00")
      = some d)
    (hout : d < minDur ∨ maxDur < d) :
    parse_shorts_analysis minDur maxDur ds
      = parse_shorts_analysis minDur maxDur ⟨ds.video_summary, pre ++ post⟩ := by
  have hnone := parseOneShort_out_of_bounds_eq_none minDur maxDur c d hd hout
  unfold parse_shorts_analysis
  rw [hshape, List.filterMap_append, List.filterMap_cons_none hnone, ← List.filterMap_append]

/-- Witness for C5 at a concrete document: the middle candidate spans 5
seconds, below the 15 second minimum, and the parse of dsC5 equals the parse
of the list without it. -/
theorem duration_filter_excludes_witness :
    calculate_duration "00:00:00" "00:00:05" = some 5 ∧ ((5 : ℚ) < 15 ∨ (60 : ℚ) < 5) ∧
    parse_shorts_analysis 15 60 dsC5 = parse_shorts_analysis 15 60 dsC5' :=
  ⟨by with_unfolding_all decide, Or.inl (by with_unfolding_all decide),
    duration_filter_excludes 15 60 dsC5 [cGood] [cGood2] cShort 5 rfl
      (by with_unfolding_all decide) (Or.inl (by with_unfolding_all decide))⟩

/-- Filtering on one score value commutes with an ordered insert: the skipped
prefix holds only strictly larger scores, so an inserted element with the
filtered score lands in front of every other element carrying it. -/
theorem filter_score_orderedInsert (q : ℚ) (x : PotentialShort) (l : List PotentialShort) :
    (l.orderedInsert scoreGE x).filter (fun s => decide (s.virality_score = q))
      = if x.virality_score = q
        then x :: l.filter (fun s => decide (s.virality_score = q))
        else l.filter (fun s => decide (s.virality_score = q)) := by
  induction l with
  | nil =>
    by_cases hx : x.virality_score = q
    · simp [List.orderedInsert, hx]
    · simp [List.orderedInsert, hx]
  | cons y ys ih =>
    by_cases hr : scoreGE x y
    · rw [List.orderedInsert, if_pos hr]
      by_cases hx : x.virality_score = q
      · simp [List.filter_cons, hx]
      · simp [List.filter_cons, hx]
    · rw [List.orderedInsert, if_neg hr]
      have hy : ¬ y.virality_score = q ∨ ¬ x.virality_score = q := by
        by_cases hx : x.virality_score = q
        · left
          intro hyq
          exact hr (le_of_eq (hyq.trans hx.symm))
        · right
          exact hx
      by_cases hx : x.virality_score = q
      · have hyq : ¬ y.virality_score = q := hy.resolve_right (fun h => h hx)
        simp [List.filter_cons, hyq, ih, hx]
      · simp [List.filter_cons, ih, hx]

/-- Filtering on one score value is unchanged by the stable insertion sort. -/
theorem filter_score_insertionSort (q : ℚ) (l : List PotentialShort) :
    (l.insertionSort scoreGE).filter (fun s => decide (s.virality_score = q))
      = l.filter (fun s => decide (s.virality_score = q)) := by
  induction l with
  | nil => rfl
  | cons x xs ih =>
    rw [List.insertionSort, filter_score_orderedInsert, List.filter_cons]
    by_cases hx : x.virality_score = q
    · simp [hx, ih]
    · simp [hx, ih]

/-- C8: the assembled shorts list is ordered by descending virality score, and
the ordering is stable: for every score value, the elements carrying it appear
in the same order as in the pre-sort candidate traversal, so equal-score clips
keep their relative input order. -/
theorem parse_orders_by_score_stably (minDur maxDur : ℚ) (ds : ShortsData) :
    (parse_shorts_analysis minDur maxDur ds).shorts.Pairwise scoreGE ∧
    ∀ q : ℚ,
      (parse_shorts_analysis minDur maxDur ds).shorts.filter
          (fun s => decide (s.virality_score = q))
        = (ds.shorts.filterMap (parseOneShort minDur maxDur)).filter
            (fun s => decide (s.virality_score = q)) := by
  haveI : IsTotal PotentialShort scoreGE := ⟨fun a b => le_total _ _⟩
  haveI : IsTrans PotentialShort scoreGE :=
    ⟨fun _ _ _ h1 h2 => le_trans h2 h1⟩
  constructor
  · exact List.sorted_insertionSort scoreGE _
  · intro q
    exact filter_score_insertionSort q _

/-- C4: on a nonempty timeline the resolver applies the three checks in the
fixed order ordering, confidence, duration, with the first failure winning:
InvalidOrdering exactly when ordering fails; LowConfidence exactly when
ordering holds and confidence fails; DurationOutOfBounds exactly when ordering
and confidence hold and duration fails; success exactly when all three hold. -/
theorem resolve_validation_order (q : CandidateQuote) (tl : List WordToken)
    (minConf minDur maxDur : ℚ) (h : tl ≠ []) :
    (resolve q tl minConf minDur maxDur = .noMatch .invalidOrdering ↔ ¬ orderingOK q tl) ∧
    (resolve q tl minConf minDur maxDur = .noMatch .lowConfidence ↔
      orderingOK q tl ∧ ¬ confidenceOK q tl minConf) ∧
    (resolve q tl minConf minDur maxDur = .noMatch .durationOutOfBounds ↔
      orderingOK q tl ∧ confidenceOK q tl minConf ∧ ¬ durationOK q tl minDur maxDur) ∧
    ((∃ seg, resolve q tl minConf minDur maxDur = .ok seg) ↔
      orderingOK q tl ∧ confidenceOK q tl minConf ∧ durationOK q tl minDur maxDur) := by
  have hlen : ¬ tl.length = 0 := by
    simpa using h
  unfold resolve
  rw [if_neg hlen]
  by_cases h1 : orderingOK q tl
  · by_cases h2 : confidenceOK q tl minConf
    · by_cases h3 : durationOK q tl minDur maxDur
      · simp [h1, h2, h3]
      · simp [h1, h2, h3]
    · simp [h1, h2]
  · simp [h1]

/-- Witness for C4 at a concrete quote and timeline, with the nonemptiness
hypothesis discharged by evaluation. -/
theorem resolve_validation_order_witness :
    (resolve qSmall tlSmall (6 / 10) 0 100 = .noMatch .invalidOrdering ↔
      ¬ orderingOK qSmall tlSmall) ∧
    (resolve qSmall tlSmall (6 / 10) 0 100 = .noMatch .lowConfidence ↔
      orderingOK qSmall tlSmall ∧ ¬ confidenceOK qSmall tlSmall (6 / 10)) ∧
    (resolve qSmall tlSmall (6 / 10) 0 100 = .noMatch .durationOutOfBounds ↔
      orderingOK qSmall tlSmall ∧ confidenceOK qSmall tlSmall (6 / 10) ∧
        ¬ durationOK qSmall tlSmall 0 100) ∧
    ((∃ seg, resolve qSmall tlSmall (6 / 10) 0 100 = .ok seg) ↔
      orderingOK qSmall tlSmall ∧ confidenceOK qSmall tlSmall (6 / 10) ∧
        durationOK qSmall tlSmall 0 100) :=
  resolve_validation_order qSmall tlSmall (6 / 10) 0 100 (by with_unfolding_all decide)

/-- C7 counterexample: in tlSmall the target "a b" matches the span at
position 0 word for word, yet locate returns confidence 1/3, far below 0.95:
the fixed word_count + 3 window mixes three extra tokens into the compared
text, diluting an exact interior match. -/
theorem locate_exact_span_low_confidence :
    normalize (windowText tlSmall 0 (wordCount "a b")) = normalize "a b" ∧
    locate "a b" tlSmall = (0, 1 / 3) ∧ ((1 : ℚ) / 3 < 95 / 100) := by
  with_unfolding_all decide

/-- Fuel never runs out when it is at least the length of the list. -/
theorem levFuel_self (l : List Char) : ∀ fuel : Nat, l.length ≤ fuel → levFuel fuel l l = 0 := by
  induction l with
  | nil =>
    intro fuel _
    cases fuel <;> rfl
  | cons c cs ih =>
    intro fuel hf
    match fuel, hf with
    | fuel + 1, hf =>
      show (if c = c then levFuel fuel cs cs else _) = 0
      rw [if_pos rfl]
      exact ih fuel (by simpa using hf)

/-- The edit distance of a list with itself is zero. -/
theorem lev_self (l : List Char) : lev l l = 0 :=
  levFuel_self l _ (by omega)

/-- The similarity ratio of a string with itself is one. -/
theorem sim_self (s : String) : sim s s = 1 := by
  unfold sim
  by_cases h : max s.data.length s.data.length = 0
  · rw [if_pos h]
  · rw [if_neg h, lev_self]
    push_cast
    rw [zero_div, sub_zero]

/-- If some reachable position scores above the early-termination threshold,
the scan returns a confidence of at least that threshold: it either exits
early at or before that position with a score above 0.95, or would have
stopped there. -/
theorem locateGo_ge_of_high (tl : List WordToken) (tgt : String) (width p : Nat)
    (hp : p < tl.length) (hs : 95 / 100 < windowScore tl tgt width p) :
    ∀ (fuel pos : Nat) (best : Nat × ℚ), pos ≤ p → p < pos + fuel →
      95 / 100 ≤ (locateGo tl tgt width fuel pos best).2 := by
  intro fuel
  induction fuel with
  | zero =>
    intro pos best h1 h2
    omega
  | succ f ih =>
    intro pos best h1 h2
    have hpos : pos < tl.length := lt_of_le_of_lt h1 hp
    show (if pos < tl.length then _ else best).2 ≥ _
    rw [if_pos hpos]
    by_cases hsc : 95 / 100 < windowScore tl tgt width pos
    · rw [if_pos hsc]
      exact le_of_lt hsc
    · rw [if_neg hsc]
      have hne : pos ≠ p := fun he => hsc (he ▸ hs)
      exact ih (pos + 1) _ (by omega) (by omega)

/-- C7 amended: when the target phrase equals, word for word modulo case and
whitespace, the span formed by the final word_count tokens of the timeline (so
the clamped window coincides with the span), locate returns a confidence of at
least 0.95; for an interior exact span the fixed word_count + 3 window can
dilute the score below the threshold, as the counterexample shows. -/
theorem locate_final_span_confidence (target : String) (tl : List WordToken)
    (hk : 1 ≤ wordCount target) (hkn : wordCount target ≤ tl.length)
    (hspan : normalize (windowText tl (tl.length - wordCount target) (wordCount target + 3))
      = normalize target) :
    95 / 100 ≤ (locate target tl).2 := by
  have hp : tl.length - wordCount target < tl.length := by omega
  have hs : (95 : ℚ) / 100 <
      windowScore tl (normalize target) (wordCount target + 3)
        (tl.length - wordCount target) := by
    unfold windowScore
    rw [hspan, sim_self]
    norm_num
  unfold locate
  exact locateGo_ge_of_high tl (normalize target) (wordCount target + 3) _ hp hs
    tl.length 0 (0, -1) (by omega) (by omega)

/-- Witness for C7's amended statement: "hello   WORLD" equals the full
two-token timeline tlHello word for word modulo case and whitespace, and
locate returns confidence at least 0.95 there. -/
theorem locate_final_span_confidence_witness :
    1 ≤ wordCount "hello   WORLD" ∧ wordCount "hello   WORLD" ≤ tlHello.length ∧
    normalize
        (windowText tlHello (tlHello.length - wordCount "hello   WORLD")
          (wordCount "hello   WORLD" + 3))
      = normalize "hello   WORLD" ∧
    95 / 100 ≤ (locate "hello   WORLD" tlHello).2 :=
  ⟨by with_unfolding_all decide, by with_unfolding_all decide, by with_unfolding_all decide,
    locate_final_span_confidence "hello   WORLD" tlHello (by with_unfolding_all decide)
      (by with_unfolding_all decide) (by with_unfolding_all decide)⟩

/-- C6: the identify route's call to identify_shorts_from_video passes the
keyword arguments min_duration and max_duration, which the service method does
not accept, so every request, including one whose candidates all fail
resolution, raises TypeError inside the route's try block and is answered with
HTTP 500; the service-level function itself would have returned a successful
empty analysis with a count of zero for that request. -/
theorem identify_route_returns_500 :
    routeCallBinds = false ∧
    identify_shorts_route 15 60 dsC6 none = Except.error 500 ∧
    identify_shorts_from_video 15 60 dsC6 none = some ⟨"", 0, []⟩ :=
  ⟨by with_unfolding_all decide, by with_unfolding_all rfl, by with_unfolding_all decide⟩

/-- A digit character rendered by Nat.digitChar is a decimal digit. -/
theorem digitChar_isDigit : ∀ d : Nat, d < 10 → (Nat.digitChar d).isDigit = true := by
  decide

/-- Reading back the value of a rendered digit character. -/
theorem digitVal_digitChar : ∀ d : Nat, d < 10 → digitVal (Nat.digitChar d) = d := by
  decide

/-- Python's % with a positive divisor is nonnegative. -/
theorem pymod_nonneg (a b : ℚ) (hb : 0 < b) : 0 ≤ pymod a b := by
  unfold pymod
  have h1 : ((⌊a / b⌋ : ℤ) : ℚ) ≤ a / b := Int.floor_le _
  have h2 : b * ((⌊a / b⌋ : ℤ) : ℚ) ≤ b * (a / b) :=
    mul_le_mul_of_nonneg_left h1 (le_of_lt hb)
  have h3 : b * (a / b) = a := by
    field_simp
  linarith

/-- Python's % with a positive divisor is below the divisor. -/
theorem pymod_lt (a b : ℚ) (hb : 0 < b) : pymod a b < b := by
  unfold pymod
  have h1 : a / b < ((⌊a / b⌋ : ℤ) : ℚ) + 1 := Int.lt_floor_add_one _
  have h2 : a < (((⌊a / b⌋ : ℤ) : ℚ) + 1) * b := (div_lt_iff₀ hb).mp h1
  have h3 : (((⌊a / b⌋ : ℤ) : ℚ) + 1) * b = b * ((⌊a / b⌋ : ℤ) : ℚ) + b := by
    ring
  linarith

/-- Assembling two-digit hour, minute and second fields below their bounds and
a three-digit millisecond field yields a string satisfying the HH:MM:SS.mmm
contract check. -/
theorem isHHMMSSmmm_build (h m s ms : Nat) (hh : h < 100) (hm : m < 60) (hs : s < 60)
    (hms : ms < 1000) :
    isHHMMSSmmm (pad2 h ++ ":" ++ pad2 m ++ ":" ++ pad2 s ++ "." ++ pad3 ms) = true := by
  have hm100 : m < 100 := by omega
  have hs100 : s < 100 := by omega
  unfold isHHMMSSmmm pad2 pad3
  rw [if_pos hh, if_pos hm100, if_pos hs100, if_pos hms]
  have hdata : (String.mk [Nat.digitChar (h / 10), Nat.digitChar (h % 10)] ++ ":" ++
      String.mk [Nat.digitChar (m / 10), Nat.digitChar (m % 10)] ++ ":" ++
      String.mk [Nat.digitChar (s / 10), Nat.digitChar (s % 10)] ++ "." ++
      String.mk [Nat.digitChar (ms / 100), Nat.digitChar (ms / 10 % 10),
        Nat.digitChar (ms % 10)]).data
      = [Nat.digitChar (h / 10), Nat.digitChar (h % 10), ':',
         Nat.digitChar (m / 10), Nat.digitChar (m % 10), ':',
         Nat.digitChar (s / 10), Nat.digitChar (s % 10), '.',
         Nat.digitChar (ms / 100), Nat.digitChar (ms / 10 % 10), Nat.digitChar (ms % 10)] := by
    simp [String.data_append]
  rw [hdata]
  simp only [isHHMMSSmmmChars]
  have i1 := digitChar_isDigit (h / 10) (by omega)
  have i2 := digitChar_isDigit (h % 10) (by omega)
  have i3 := digitChar_isDigit (m / 10) (by omega)
  have i4 := digitChar_isDigit (m % 10) (by omega)
  have i5 := digitChar_isDigit (s / 10) (by omega)
  have i6 := digitChar_isDigit (s % 10) (by omega)
  have i7 := digitChar_isDigit (ms / 100) (by omega)
  have i8 := digitChar_isDigit (ms / 10 % 10) (by omega)
  have i9 := digitChar_isDigit (ms % 10) (by omega)
  have e1 := digitVal_digitChar (m / 10) (by omega)
  have e2 := digitVal_digitChar (m % 10) (by omega)
  have e3 := digitVal_digitChar (s / 10) (by omega)
  have e4 := digitVal_digitChar (s % 10) (by omega)
  have b1 : 10 * (m / 10) + m % 10 < 60 := by omega
  have b2 : 10 * (s / 10) + s % 10 < 60 := by omega
  simp [i1, i2, i3, i4, i5, i6, i7, i8, i9, e1, e2, e3, e4, b1, b2]

/-- C9 counterexample: at 59.9999 seconds the %06.3f rendering of the seconds
value rounds up to 60.000 and the formatter emits 00:00:60.000, whose seconds
field is not strictly below 60; and at 360000 seconds the hours field takes
three digits, so neither output matches the claimed format. -/
theorem format_seconds_field_overflows :
    format_timestamp_ffmpeg (599999 / 10000) = "00:00:60.000" ∧
    isHHMMSSmmm (format_timestamp_ffmpeg (599999 / 10000)) = false ∧
    (0 : ℚ) ≤ 599999 / 10000 ∧
    format_timestamp_ffmpeg 360000 = "100:00:00.000" ∧
    isHHMMSSmmm (format_timestamp_ffmpeg 360000) = false := by
  with_unfolding_all decide

/-- C9 amended: for every nonnegative number of seconds below 100 hours whose
seconds value does not round up to 60.000 at three decimals, the formatter
produces exactly the HH:MM:SS.mmm shape: two zero-padded hour digits, two
minute digits, two second digits and three millisecond digits, with minutes
and seconds strictly below 60. -/
theorem format_timestamp_well_formed (q : ℚ) (_h0 : 0 ≤ q) (hlt : q < 360000)
    (hsec : (roundHalfEven (1000 * pymod q 60)).toNat < 60000) :
    isHHMMSSmmm (format_timestamp_ffmpeg q) = true := by
  have hh : (⌊q / 3600⌋).toNat < 100 := by
    have h1 : ⌊q / 3600⌋ < 100 := by
      rw [Int.floor_lt]
      push_cast
      rw [div_lt_iff₀ (by norm_num : (0 : ℚ) < 3600)]
      linarith
    omega
  have hm : (⌊pymod q 3600 / 60⌋).toNat < 60 := by
    have hlt2 : pymod q 3600 < 3600 := pymod_lt q 3600 (by norm_num)
    have h1 : ⌊pymod q 3600 / 60⌋ < 60 := by
      rw [Int.floor_lt]
      push_cast
      rw [div_lt_iff₀ (by norm_num : (0 : ℚ) < 60)]
      linarith
    omega
  unfold format_timestamp_ffmpeg
  exact isHHMMSSmmm_build _ _ _ _ hh hm (by omega) (Nat.mod_lt _ (by norm_num))

/-- Witness for C9's amended statement at 90.5 seconds, rendered
00:01:30.500. -/
theorem format_timestamp_well_formed_witness :
    (0 : ℚ) ≤ 181 / 2 ∧ (181 / 2 : ℚ) < 360000 ∧
    (roundHalfEven (1000 * pymod (181 / 2) 60)).toNat < 60000 ∧
    isHHMMSSmmm (format_timestamp_ffmpeg (181 / 2)) = true :=
  ⟨by with_unfolding_all decide, by with_unfolding_all decide, by with_unfolding_all decide,
    format_timestamp_well_formed (181 / 2) (by with_unfolding_all decide)
      (by with_unfolding_all decide) (by with_unfolding_all decide)⟩

end ShortGen
